import Mathlib

/-!
Shallow embedding of the sma_trafic multi-agent traffic simulator core,
with theorems settling the frozen specification claims.

Source files embedded:
- src/communication/fipa_message.py  (FIPAMessage, MessageQueue)
- src/algorithms/routing.py          (RoadNetwork, AStarRouter heuristic)
- src/agents/vehicle_agent.py        (handle_message, _recalculate_route)
- src/agents/intersection_agent.py   (light state machine, Max-Pressure,
                                      Q-Learning, _force_green, green wave)
- src/agents/crisis_manager_agent.py (_evaluate_cnp_proposal, worst direction)

Python floats are modelled as rationals, except road-network edge weights
and positions feeding the Euclidean distance, which live in the reals
because of the square root.  Python dicts are modelled as functions into
Option, or as association lists where insertion order matters.
Definitions come first, theorems follow.
-/

/-- Content values carried in a FIPA message `content` dict
(src/communication/fipa_message.py: `content: Dict[str, Any]`). -/
inductive CVal where
  | str : String → CVal
  | num : ℚ → CVal
  | pt : ℚ × ℚ → CVal
  deriving DecidableEq, Repr

/-- Look up a numeric content entry with a default, mirroring
`message.content.get(key, default)` on numeric payloads. -/
def getNum (content : List (String × CVal)) (key : String) (dflt : ℚ) : ℚ :=
  match content.lookup key with
  | some (CVal.num q) => q
  | _ => dflt

/-- Look up a string content entry with a default, mirroring
`message.content.get(key, default)` on string payloads. -/
def getStr (content : List (String × CVal)) (key : String) (dflt : String) : String :=
  match content.lookup key with
  | some (CVal.str s) => s
  | _ => dflt

/-- FIPA-ACL message value (src/communication/fipa_message.py, `FIPAMessage`).
`timestamp` and `messageId` are generated from the wall clock in the source;
here they are plain fields supplied by the caller. -/
structure FIPAMessage where
  sender : String
  receiver : String
  performative : String
  content : List (String × CVal)
  language : String := "JSON"
  ontology : Option String := none
  protocol : Option String := none
  conversationId : Option String := none
  replyTo : Option String := none
  replyBy : Option ℚ := none
  timestamp : ℚ := 0
  messageId : String := ""
  deriving DecidableEq, Repr

/-- The values of the `Performative` enum
(src/communication/fipa_message.py lines 12-44). -/
def performativeValues : List String :=
  ["inform", "query-if", "query-ref", "propose", "accept-proposal",
   "reject-proposal", "request", "agree", "refuse", "failure", "confirm",
   "disconfirm", "not-understood", "cancel", "inform-congestion",
   "request-route", "coordinate"]

/-- ASCII lower-casing of one character, as `str.lower()` acts on the
ASCII range (all performative strings are ASCII). -/
def lowerChar (c : Char) : Char :=
  if c.toNat ≥ 65 ∧ c.toNat ≤ 90 then Char.ofNat (c.toNat + 32) else c

/-- ASCII lower-casing of a string, modelling Python `str.lower()` on
the ASCII strings the protocol uses. -/
def lowerString (s : String) : String := String.mk (s.data.map lowerChar)

/-- Normalization performed by `FIPAMessage.__post_init__` (lines 81-89):
lower-case the performative if the lower-cased string is a standard
`Performative` value, otherwise keep it unchanged. -/
def normalizePerformative (p : String) : String :=
  let q := lowerString p
  if performativeValues.contains q then q else p

/-- Message construction including the `__post_init__` normalization. -/
def mkFIPAMessage (m : FIPAMessage) : FIPAMessage :=
  { m with performative := normalizePerformative m.performative }

/-- Reply construction, `FIPAMessage.create_reply` (lines 121-132).
The new message runs through `__post_init__` like any construction; its
fresh `timestamp` and `message_id` are supplied by the caller. -/
def createReply (m : FIPAMessage) (performative : String)
    (content : List (String × CVal)) (ts : ℚ) (mid : String) : FIPAMessage :=
  mkFIPAMessage
    { sender := m.receiver
      receiver := m.sender
      performative := performative
      content := content
      conversationId := m.conversationId
      replyTo := some m.messageId
      protocol := m.protocol
      ontology := m.ontology
      timestamp := ts
      messageId := mid }

/-- Per-agent message queue (src/communication/fipa_message.py,
`MessageQueue.__init__`, lines 145-149). -/
structure MessageQueue where
  inbox : List FIPAMessage
  outbox : List FIPAMessage
  maxSize : ℕ
  messageCount : ℕ
  deriving Repr

/-- Fresh queue, `MessageQueue.__init__(max_size)`. -/
def emptyQueue (maxSize : ℕ) : MessageQueue :=
  { inbox := [], outbox := [], maxSize := maxSize, messageCount := 0 }

/-- Source `MessageQueue.add_to_inbox` (lines 151-158): append if below capacity,
otherwise evict the oldest entry (`pop(0)`) and append. -/
def addToInbox (q : MessageQueue) (m : FIPAMessage) : MessageQueue :=
  if q.inbox.length < q.maxSize then
    { q with inbox := q.inbox ++ [m] }
  else
    { q with inbox := q.inbox.drop 1 ++ [m] }

/-- A sample message for concrete witnesses. -/
def sampleMsg (i : ℕ) : FIPAMessage :=
  mkFIPAMessage
    { sender := "a", receiver := "b", performative := "inform"
      content := [("idx", CVal.num i)], messageId := toString i }

/-- OSM correction factor as computed by the source (lines 249-255):
start at 1.3; `if euclidean_dist > 5000` set 1.15; `elif euclidean_dist
> 10000` set 1.1.  The chain is embedded exactly as written, so the
second branch is reachable only when the first fails. -/
def osmCorrectionFactor (euclideanDist : ℚ) : ℚ :=
  if euclideanDist > 5000 then 23/20
  else if euclideanDist > 10000 then 11/10
  else 13/10

/-- Heuristic value as a function of the already-computed Euclidean
distance to the goal (line 257: `euclidean_dist * osm_correction_factor`). -/
def heuristicOfDistance (euclideanDist : ℚ) : ℚ :=
  euclideanDist * osmCorrectionFactor euclideanDist

/-- Correction factor as the specification words it: 1.30 for distances
at most 5 km, 1.15 between 5 and 10 km, 1.10 beyond 10 km. -/
def specOsmCorrectionFactor (euclideanDist : ℚ) : ℚ :=
  if euclideanDist ≤ 5000 then 13/10
  else if euclideanDist ≤ 10000 then 23/20
  else 11/10

/-- Value of the traffic-state belief.  `perceive` always stores a string
(`_assess_traffic_state`), but `_recalculate_route` also probes for a
dict (`isinstance(traffic_state, dict)`), so both shapes are modelled. -/
inductive TSVal where
  | str : String → TSVal
  | obj : ℚ → TSVal
  deriving DecidableEq, Repr

/-- Congestion belief stored by `VehicleAgent.handle_message`
(lines 427-431): level, location, reason, plus the message sender
recorded as the belief source. -/
structure CongestionBelief where
  level : ℚ
  location : Option CVal
  reason : String
  source : String
  deriving DecidableEq, Repr

/-- One entry of `reroute_history` (vehicle_agent.py lines 357-365). -/
structure RerouteRecord where
  time : ℚ
  reason : String
  congestionLevel : ℚ
  oldRouteLength : ℤ
  newRouteLength : ℤ
  position : ℚ × ℚ
  vehicleType : String
  deriving DecidableEq, Repr

/-- Vehicle agent state: the fields of `VehicleAgent.__init__` touched by
`handle_message` and `_recalculate_route`, plus the relevant beliefs and
the lazily-created attributes (`_last_message_type`, `reroute_history`)
modelled as `Option`/initially-empty fields. -/
structure VehicleState where
  position : ℚ × ℚ
  destination : ℚ × ℚ
  vehicleType : String
  active : Bool
  currentRoute : List (ℚ × ℚ)
  currentWaypointIndex : ℕ
  routeRecalculationTimer : ℚ
  routeRecalculationInterval : ℚ
  routeChanges : ℕ
  lastMessageType : Option String
  beliefCongestion : Option CongestionBelief
  beliefTrafficState : Option TSVal
  beliefRoute : List (ℚ × ℚ)
  rerouteHistory : List RerouteRecord
  currentTime : ℚ
  deriving DecidableEq, Repr

/-- Congestion level read in `_recalculate_route` (line 315): taken from
the traffic-state belief only when it is a dict, else 0.0. -/
def trafficStateCongestionLevel (b : Option TSVal) : ℚ :=
  match b with
  | some (TSVal.obj q) => q
  | _ => 0

/-- Reroute reason (vehicle_agent.py lines 318-325): `periodic_check`
unless the congestion level exceeds 0.7 (`high_congestion`) or a last
message type of `congestion`/`incident` was recorded. -/
def rerouteReason (congestionLevel : ℚ) (lastMessageType : Option String) : String :=
  if congestionLevel > 7/10 then "high_congestion"
  else
    match lastMessageType with
    | none => "periodic_check"
    | some t =>
      if t = "congestion" then "congestion_alert"
      else if t = "incident" then "incident_alert"
      else "periodic_check"

/-- Source `VehicleAgent._recalculate_route` (lines 306-376).  The scheduler's
router (`model.calculate_route`) is passed in as a function; the model is
assumed to expose it, as it does in every run of the simulator.  Returns
the intention's success flag together with the updated state. -/
def recalculateRoute (router : ℚ × ℚ → ℚ × ℚ → Option (List (ℚ × ℚ)))
    (st : VehicleState) : Bool × VehicleState :=
  let congestionLevel := trafficStateCongestionLevel st.beliefTrafficState
  let reason := rerouteReason congestionLevel st.lastMessageType
  let oldRouteLength : ℤ :=
    if st.currentRoute ≠ [] then
      (st.currentRoute.length : ℤ) - (st.currentWaypointIndex : ℤ)
    else 0
  match router st.position st.destination with
  | some newRoute =>
    (true,
      { st with
          currentRoute := newRoute
          currentWaypointIndex := 0
          routeChanges := st.routeChanges + 1
          beliefRoute := newRoute
          rerouteHistory := st.rerouteHistory ++
            [{ time := st.currentTime
               reason := reason
               congestionLevel := congestionLevel
               oldRouteLength := oldRouteLength
               newRouteLength := (newRoute.length : ℤ)
               position := st.position
               vehicleType := st.vehicleType }] })
  | none => (false, st)

/-- Source `VehicleAgent.handle_message` (lines 401-441).  The branch guard is
`message.performative == "INFORM"` (exact, upper case) and then
`"congestion" in message.content` (a key-membership test).  Inside the
branch, when the level exceeds 0.7 or the reason is `incident` and the
vehicle is active, the code reads `self.route`, an attribute
`VehicleAgent` never defines; that access raises `AttributeError`,
modelled as `none`. -/
def vehicleHandleMessage (st : VehicleState) (m : FIPAMessage) :
    Option VehicleState :=
  if m.performative = "INFORM" then
    if (m.content.lookup "congestion").isSome then
      let congestionLevel := getNum m.content "congestion_level" 0
      let reason := getStr m.content "reason" ""
      let msgType := getStr m.content "type" "congestion"
      let st1 :=
        { st with
            lastMessageType := some msgType
            beliefCongestion := some
              { level := congestionLevel
                location := m.content.lookup "location"
                reason := reason
                source := m.sender } }
      if congestionLevel > 7/10 ∨ reason = "incident" then
        if st1.active then
          none
        else
          some { st1 with routeRecalculationTimer := st1.routeRecalculationInterval }
      else some st1
    else some st
  else some st

/-- The message the incident scenario sends to nearby vehicles
(src/scenarios/incident.py lines 247-258), after `__post_init__`
normalization. -/
def incidentInformMsg : FIPAMessage :=
  mkFIPAMessage
    { sender := "scenario_manager"
      receiver := "vehicle_1"
      performative := "inform"
      content :=
        [("type", CVal.str "congestion"),
         ("congestion_level", CVal.num 1),
         ("location", CVal.pt (500, 500)),
         ("reason", CVal.str "incident"),
         ("blocked_road", CVal.str "Boulevard VGE")]
      messageId := "msg_1" }

/-- Concrete vehicle state for witnesses. -/
def sampleVehicle : VehicleState :=
  { position := (0, 0)
    destination := (200, 200)
    vehicleType := "standard"
    active := true
    currentRoute := [(0, 0), (100, 0), (200, 200)]
    currentWaypointIndex := 1
    routeRecalculationTimer := 0
    routeRecalculationInterval := 30
    routeChanges := 2
    lastMessageType := none
    beliefCongestion := none
    beliefTrafficState := some (TSVal.str "fluide")
    beliefRoute := [(0, 0), (100, 0), (200, 200)]
    rerouteHistory := []
    currentTime := 42 }

/-- Lane directions (src/agents/intersection_agent.py, `Direction`). -/
inductive Direction where
  | north | south | east | west
  deriving DecidableEq, Repr

/-- The `.value` string of a `Direction` enum member. -/
def directionValue : Direction → String
  | Direction.north => "north"
  | Direction.south => "south"
  | Direction.east => "east"
  | Direction.west => "west"

/-- Default direction list of `IntersectionAgent.__init__` (line 57),
which is also the insertion order of every per-direction dict. -/
def allDirections : List Direction :=
  [Direction.north, Direction.south, Direction.east, Direction.west]

/-- Worst (most congested) direction, from `_delegate_priority_via_cnp`
line 313: `max(queue_lengths, key=queue_lengths.get)` iterates the dict
keys in insertion order and keeps the first maximal one. -/
def worstDirection (q : Direction → ℕ) : Direction :=
  [Direction.south, Direction.east, Direction.west].foldl
    (fun best d => if q d > q best then d else best) Direction.north

/-- A stored CNP proposal (`_evaluate_cnp_proposal` lines 367-372;
the original message is also stored in the source but never read). -/
structure Proposal where
  sender : String
  availability : ℚ
  currentLoad : ℚ
  deriving DecidableEq, Repr

/-- Crisis manager state used by the CNP manager role: its id and the
`cnp_proposals` dict keyed by conversation id. -/
structure CrisisState where
  uniqueId : String
  cnpProposals : String → Option (List Proposal)

/-- Conversation key: `message.conversation_id or "default"` (line 362);
Python treats both a missing id and an empty string as falsy. -/
def cnpConversationId (m : FIPAMessage) : String :=
  match m.conversationId with
  | none => "default"
  | some s => if s = "" then "default" else s

/-- The proposal record appended for an incoming `propose` message. -/
def proposalOfMessage (m : FIPAMessage) : Proposal :=
  { sender := m.sender
    availability := getNum m.content "availability" 0
    currentLoad := getNum m.content "current_load" 0 }

/-- Proposal list for the conversation after appending the new one. -/
def cnpUpdatedProposals (st : CrisisState) (m : FIPAMessage) : List Proposal :=
  (st.cnpProposals (cnpConversationId m)).getD [] ++ [proposalOfMessage m]

/-- First maximal-availability proposal: Python `max(proposals, key=...)`
keeps the earliest element when availabilities tie. -/
def maxByAvailability (p : Proposal) (ps : List Proposal) : Proposal :=
  ps.foldl (fun best q => if q.availability > best.availability then q else best) p

/-- The `accept-proposal` built at lines 383-392; note the hard-coded
`priority_direction: "north"`. -/
def cnpAcceptMsg (st : CrisisState) (convId receiver : String) : FIPAMessage :=
  mkFIPAMessage
    { sender := st.uniqueId
      receiver := receiver
      performative := "accept-proposal"
      content := [("task", CVal.str "priority_delegation"),
                  ("priority_direction", CVal.str "north")]
      conversationId := some convId }

/-- The `reject-proposal` built at lines 395-401. -/
def cnpRejectMsg (st : CrisisState) (convId receiver : String) : FIPAMessage :=
  mkFIPAMessage
    { sender := st.uniqueId
      receiver := receiver
      performative := "reject-proposal"
      content := [("reason", CVal.str "better_proposal_received")]
      conversationId := some convId }

/-- Decision messages of the arbitration loop (lines 380-405): one
message per stored proposal, in order; `accept-proposal` for proposals
whose sender matches the best sender, `reject-proposal` otherwise. -/
def cnpDecisionMsgs (st : CrisisState) (convId : String) :
    List Proposal → List FIPAMessage
  | [] => []
  | p0 :: rest =>
    let best := maxByAvailability p0 rest
    (p0 :: rest).map fun p =>
      if p.sender = best.sender then cnpAcceptMsg st convId p.sender
      else cnpRejectMsg st convId p.sender

/-- Source `CrisisManagerAgent._evaluate_cnp_proposal` (lines 355-408): store
the incoming proposal; once at least two are collected for the
conversation, accept the first maximal-availability one, reject the
rest (messages are returned in proposal order, as the source emits
them), and delete the conversation entry. -/
def evaluateCnpProposal (st : CrisisState) (m : FIPAMessage) :
    List FIPAMessage × CrisisState :=
  let convId := cnpConversationId m
  let ps := cnpUpdatedProposals st m
  if 2 ≤ ps.length then
    (cnpDecisionMsgs st convId ps,
      { st with cnpProposals := fun k =>
          if k = convId then none else st.cnpProposals k })
  else
    ([],
      { st with cnpProposals := fun k =>
          if k = convId then some ps else st.cnpProposals k })

/-- Concrete CNP state: one stored proposal from `int_A` (availability
1) for conversation `cnp_1`. -/
def exCrisisState : CrisisState :=
  { uniqueId := "crisis_manager"
    cnpProposals := fun k =>
      if k = "cnp_1" then
        some [{ sender := "int_A", availability := 1, currentLoad := 10 }]
      else none }

/-- Concrete second `propose` message from `int_B` (availability 9)
for conversation `cnp_1`. -/
def exProposeMsg : FIPAMessage :=
  mkFIPAMessage
    { sender := "int_B"
      receiver := "crisis_manager"
      performative := "propose"
      content := [("task", CVal.str "priority_delegation"),
                  ("availability", CVal.num 9),
                  ("current_load", CVal.num 2)]
      conversationId := some "cnp_1"
      messageId := "msg_b" }

/-- Queue lengths of a congested intersection whose worst direction is
east (`_delegate_priority_via_cnp` uses it as the CFP direction). -/
def exCongestedQueues : Direction → ℕ :=
  fun d => match d with
  | Direction.east => 9
  | Direction.west => 1
  | _ => 0

/-- Traffic light states (`TrafficLightState` enum, lines 13-17). -/
inductive TrafficLightState where
  | red | yellow | green
  deriving DecidableEq, Repr

/-- The NS phase group (`ns_group`/`ns_directions`): for the default
four-direction configuration these are north and south. -/
def nsGroup : List Direction := [Direction.north, Direction.south]

/-- The EW phase group (`ew_group`/`ew_directions`). -/
def ewGroup : List Direction := [Direction.east, Direction.west]

/-- A neighbor's state snapshot as stored in `neighbor_states`
(`_broadcast_state_to_neighbors` lines 609-617). -/
structure NeighborSnapshot where
  phase : Option String
  phaseTimerRemaining : ℚ
  queueLengths : List (String × ℚ)
  outflowEstimate : ℚ
  position : Option (ℚ × ℚ)
  timestamp : ℚ
  deriving DecidableEq, Repr

/-- Intersection agent state: the fields of `IntersectionAgent.__init__`
relevant to the light state machine, phase selection and green-wave
coordination, for the default four-direction configuration. -/
structure IntersectionState where
  trafficLights : Direction → TrafficLightState
  lightTimers : Direction → ℚ
  greenDurations : Direction → ℚ
  queueLengths : Direction → ℕ
  neighborStates : List (String × NeighborSnapshot)
  minGreenTime : ℚ
  maxGreenTime : ℚ
  defaultGreenTime : ℚ
  congestionThreshold : ℚ
  greenWaveOffset : ℚ
  greenWavePhase : Option String
  greenWaveActive : Bool
  greenWaveTimer : ℚ
  qTable : List (String × (ℚ × ℚ))
  learningRate : ℚ
  discountFactor : ℚ
  epsilon : ℚ
  epsilonDecay : ℚ
  epsilonMin : ℚ
  previousState : Option String
  previousAction : Option String
  previousTotalWaiting : ℚ
  totalVehiclesProcessed : ℕ
  phaseChanges : ℕ
  timeStep : ℚ
  useQLearning : Bool
  position : ℚ × ℚ

/-- Initial intersection state (`__init__` lines 60-105 and
`_initialize_traffic_lights` lines 116-127): north and south green,
east and west red, all timers zero, defaults for every parameter. -/
def initIntersectionState (position : ℚ × ℚ) (timeStep : ℚ)
    (useQL : Bool) : IntersectionState :=
  { trafficLights := fun d =>
      match d with
      | Direction.north => TrafficLightState.green
      | Direction.south => TrafficLightState.green
      | _ => TrafficLightState.red
    lightTimers := fun _ => 0
    greenDurations := fun _ => 30
    queueLengths := fun _ => 0
    neighborStates := []
    minGreenTime := 15
    maxGreenTime := 90
    defaultGreenTime := 30
    congestionThreshold := 10
    greenWaveOffset := 0
    greenWavePhase := none
    greenWaveActive := false
    greenWaveTimer := 0
    qTable := []
    learningRate := 1/10
    discountFactor := 9/10
    epsilon := 1/10
    epsilonDecay := 995/1000
    epsilonMin := 1/100
    previousState := none
    previousAction := none
    previousTotalWaiting := 0
    totalVehiclesProcessed := 0
    phaseChanges := 0
    timeStep := timeStep
    useQLearning := useQL
    position := position }

/-- Source `_get_current_phase` (lines 749-754): `NS` iff north is green. -/
def getCurrentPhase (st : IntersectionState) : String :=
  if st.trafficLights Direction.north = TrafficLightState.green then "NS" else "EW"

/-- Current green timer as computed at the top of both decision
functions (lines 379-382 and 290-293): the maximum light timer over the
currently green directions, starting from 0. -/
def currentGreenTimer (st : IntersectionState) : ℚ :=
  allDirections.foldl
    (fun acc d =>
      if st.trafficLights d = TrafficLightState.green then max acc (st.lightTimers d)
      else acc) 0

/-- Source `_estimate_downstream_queue` (lines 441-465): the first neighbor
snapshot with a non-empty queue dict yields `min(avg, 10)`; otherwise 2
if the direction is green, else 5. -/
def estimateDownstreamQueue (st : IntersectionState) (d : Direction) : ℚ :=
  match st.neighborStates.find? (fun ns => !ns.2.queueLengths.isEmpty) with
  | some ns =>
    let vals := ns.2.queueLengths.map (fun e => e.2)
    min (vals.sum / (vals.length : ℚ)) 10
  | none =>
    if st.trafficLights d = TrafficLightState.green then 2 else 5

/-- Pressure of a phase group (lines 396-412):
`Σ_d (queue_in(d) − queue_out_estimate(d))`. -/
def phasePressure (st : IntersectionState) (dirs : List Direction) : ℚ :=
  (dirs.map (fun d => (st.queueLengths d : ℚ) - estimateDownstreamQueue st d)).sum

/-- Source `_max_pressure_decision` (lines 369-439): below `min_green_time`
never change; otherwise change when the maximal-pressure phase differs
and beats the current one by more than 5, when the green exceeded
`max_green_time`, or when it exceeded its planned duration with current
pressure below 2.  `max(phase_pressures, key=get)` keeps the first key
(`NS`) on ties. -/
def maxPressureDecision (st : IntersectionState) : Bool :=
  let ctimer := currentGreenTimer st
  if ctimer < st.minGreenTime then false
  else
    let pNS := phasePressure st nsGroup
    let pEW := phasePressure st ewGroup
    let cur := getCurrentPhase st
    let maxPhase := if pEW > pNS then "EW" else "NS"
    let maxVal := if pEW > pNS then pEW else pNS
    let curVal := if cur = "NS" then pNS else pEW
    if maxPhase ≠ cur ∧ maxVal - curVal > 5 then true
    else if ctimer > st.maxGreenTime then true
    else if ctimer > st.greenDurations
          (if cur = "NS" then Direction.north else Direction.east)
        ∧ curVal < 2 then true
    else false

/-- Total queued vehicles, `sum(self.queue_lengths.values())`. -/
def totalQueueLength (st : IntersectionState) : ℚ :=
  ((allDirections.map st.queueLengths).sum : ℚ)

/-- Maximal queue, `max(self.queue_lengths.values())`. -/
def maxQueueLength (st : IntersectionState) : ℕ :=
  (allDirections.map st.queueLengths).foldl max 0

/-- Source `_compute_reward` (lines 328-346). -/
def computeReward (st : IntersectionState) : ℚ :=
  let currentTotalWaiting := totalQueueLength st
  let waitingDiff := st.previousTotalWaiting - currentTotalWaiting
  let congestionPenalty :=
    -(1/2) * max 0 ((maxQueueLength st : ℚ) - st.congestionThreshold)
  let throughputBonus := (1/10) * (st.totalVehiclesProcessed : ℚ)
  waitingDiff + congestionPenalty + throughputBonus

/-- Source `_get_state_representation` (lines 467-479). -/
def getStateRepresentation (st : IntersectionState) : String :=
  let nsQueue := st.queueLengths Direction.north + st.queueLengths Direction.south
  let ewQueue := st.queueLengths Direction.east + st.queueLengths Direction.west
  let cur :=
    if st.trafficLights Direction.north = TrafficLightState.green then "NS" else "EW"
  let nsDiscrete := min (nsQueue / 3) 5
  let ewDiscrete := min (ewQueue / 3) 5
  toString nsDiscrete ++ "_" ++ toString ewDiscrete ++ "_" ++ cur

/-- Write one action value in the Q-table.  In every execution of the
source the key is present (it was inserted when first encountered as
the current state); an absent key would raise in Python and leaves the
table unchanged here. -/
def qTableSet (t : List (String × (ℚ × ℚ))) (k a : String) (v : ℚ) :
    List (String × (ℚ × ℚ)) :=
  t.map fun e =>
    if e.1 = k then (e.1, if a = "change" then (v, e.2.2) else (e.2.1, v))
    else e

/-- Source `_update_q_table` (lines 348-367): ensure the next state exists,
then apply the Bellman update to `(state, action)`. -/
def updateQTable (t : List (String × (ℚ × ℚ))) (state action : String)
    (reward : ℚ) (nextState : String) (alpha gamma : ℚ) :
    List (String × (ℚ × ℚ)) :=
  let t1 := if (t.lookup nextState).isSome then t else t ++ [(nextState, (0, 0))]
  let currentQ :=
    let e := (t1.lookup state).getD (0, 0)
    if action = "change" then e.1 else e.2
  let nexts := (t1.lookup nextState).getD (0, 0)
  let maxNextQ := max nexts.1 nexts.2
  let newQ := currentQ + alpha * (reward + gamma * maxNextQ - currentQ)
  qTableSet t1 state action newQ

/-- Source `_q_learning_decision` (lines 287-326): respect `min_green_time`,
then Bellman-update the previous state/action, pick an action
ε-greedily (the two random draws are explicit inputs), record the new
previous state/action, and decay ε. -/
def qLearningDecision (st : IntersectionState) (rand1 rand2 : ℚ) :
    Bool × IntersectionState :=
  let ctimer := currentGreenTimer st
  if ctimer < st.minGreenTime then (false, st)
  else
    let state := getStateRepresentation st
    let qt0 :=
      if (st.qTable.lookup state).isSome then st.qTable
      else st.qTable ++ [(state, (0, 0))]
    let qt1 :=
      match st.previousState, st.previousAction with
      | some prevS, some prevA =>
        updateQTable qt0 prevS prevA (computeReward st) state
          st.learningRate st.discountFactor
      | _, _ => qt0
    let qvals := (qt1.lookup state).getD (0, 0)
    let action :=
      if rand1 < st.epsilon then (if rand2 < 1/2 then "change" else "keep")
      else (if qvals.1 > qvals.2 then "change" else "keep")
    (decide (action = "change"),
      { st with
          qTable := qt1
          previousState := some state
          previousAction := some action
          previousTotalWaiting := totalQueueLength st
          epsilon := max (st.epsilon * st.epsilonDecay) st.epsilonMin })

/-- Source `_should_change_phase` (lines 270-285): an active green wave holds
the phase while its timer (decremented by one time step) stays positive;
otherwise the configured policy decides. -/
def shouldChangePhase (st : IntersectionState) (rand1 rand2 : ℚ) :
    Bool × IntersectionState :=
  if st.greenWaveActive then
    let t := st.greenWaveTimer - st.timeStep
    if t > 0 then (false, { st with greenWaveTimer := t })
    else
      let st1 := { st with greenWaveTimer := t, greenWaveActive := false }
      if st1.useQLearning then qLearningDecision st1 rand1 rand2
      else (maxPressureDecision st1, st1)
  else if st.useQLearning then qLearningDecision st rand1 rand2
  else (maxPressureDecision st, st)

/-- Pick the next phase and consume a memorized green-wave target
(`_change_traffic_light_phase` lines 517-526): by default invert the
current phase; a non-empty memorized `_green_wave_phase` overrides it
(and is consumed) when no green wave is currently active. -/
def nextPhaseAndConsume (st : IntersectionState) (defaultNext : String) :
    String × IntersectionState :=
  match st.greenWavePhase, st.greenWaveActive with
  | some p, false =>
    if p = "" then (defaultNext, st)
    else (p, { st with greenWavePhase := none, greenWaveOffset := 0 })
  | _, _ => (defaultNext, st)

/-- Neighbor bonus of the new green duration (lines 544-549): twice the
outflow estimate of the first neighbor whose snapshot phase matches the
new phase, capped at 20. -/
def neighborBonus (st : IntersectionState) (nextPhase : String) : ℚ :=
  match st.neighborStates.find? (fun ns => ns.2.phase == some nextPhase) with
  | some ns => min (ns.2.outflowEstimate * 2) 20
  | none => 0

/-- Apply the phase flip (lines 528-556): the new red group goes red
with zeroed timers, the new green group goes green with zeroed timers
and duration `min(min_green + queue·2 + neighbor_bonus, max_green)`;
`phase_changes` is incremented. -/
def applyPhaseTransition (st : IntersectionState) (nextPhase : String) :
    IntersectionState :=
  let newGreenGroup := if nextPhase = "NS" then nsGroup else ewGroup
  let newRedGroup := if nextPhase = "NS" then ewGroup else nsGroup
  let bonus := neighborBonus st nextPhase
  { st with
      trafficLights := fun d =>
        if newGreenGroup.contains d then TrafficLightState.green
        else if newRedGroup.contains d then TrafficLightState.red
        else st.trafficLights d
      lightTimers := fun d =>
        if newGreenGroup.contains d ∨ newRedGroup.contains d then 0
        else st.lightTimers d
      greenDurations := fun d =>
        if newGreenGroup.contains d then
          min (st.minGreenTime + (st.queueLengths d : ℚ) * 2 + bonus)
            st.maxGreenTime
        else st.greenDurations d
      phaseChanges := st.phaseChanges + 1 }

/-- Source `_change_traffic_light_phase` (lines 503-556): no-op returning
`False` when nothing is green, otherwise flip to the selected phase. -/
def changeTrafficLightPhase (st : IntersectionState) :
    Bool × IntersectionState :=
  if (allDirections.filter
      (fun d => st.trafficLights d = TrafficLightState.green)).isEmpty then
    (false, st)
  else
    let cur := getCurrentPhase st
    let sel := nextPhaseAndConsume st (if cur = "NS" then "EW" else "NS")
    (true, applyPhaseTransition sel.2 sel.1)

/-- Gate of `_force_green` (lines 958-962): some currently green
direction has not yet satisfied `min_green_time`. -/
def forceGreenGate (st : IntersectionState) : Prop :=
  ∃ d ∈ allDirections, st.trafficLights d = TrafficLightState.green
    ∧ st.lightTimers d < st.minGreenTime

instance (st : IntersectionState) : Decidable (forceGreenGate st) := by
  unfold forceGreenGate
  infer_instance

/-- Transition part of `_force_green` (lines 968-990): the target's
group goes green, the other group red, all their timers zeroed,
`phase_changes` incremented. -/
def forceGreenApply (st : IntersectionState) (target : Direction) :
    IntersectionState :=
  let greenGroup := if nsGroup.contains target then nsGroup else ewGroup
  let redGroup := if nsGroup.contains target then ewGroup else nsGroup
  { st with
      trafficLights := fun d =>
        if greenGroup.contains d then TrafficLightState.green
        else if redGroup.contains d then TrafficLightState.red
        else st.trafficLights d
      lightTimers := fun d =>
        if greenGroup.contains d ∨ redGroup.contains d then 0
        else st.lightTimers d
      phaseChanges := st.phaseChanges + 1 }

/-- Source `_force_green` (lines 952-990): refuse while the current green is
younger than `min_green_time`, do nothing if the target is already
green, otherwise force the target's phase group. -/
def forceGreen (st : IntersectionState) (target : Direction) :
    IntersectionState :=
  if forceGreenGate st then st
  else if st.trafficLights target = TrafficLightState.green then st
  else forceGreenApply st target

/-- Source `_schedule_green_wave` (lines 706-747): extend the green when the
target phase is already active; force it (through `_force_green`) and
lock a green wave when the flow arrives within `min_green_time` and the
current green satisfied the floor; otherwise memorize the target. -/
def scheduleGreenWave (st : IntersectionState) (targetPhase : String)
    (offset expectedFlow : ℚ) : IntersectionState :=
  if getCurrentPhase st = targetPhase then
    let extra := min (expectedFlow * 2) st.maxGreenTime
    { st with
        greenDurations := fun d =>
          if st.trafficLights d = TrafficLightState.green then
            min (st.greenDurations d + extra) st.maxGreenTime
          else st.greenDurations d }
  else if offset ≤ st.minGreenTime then
    if currentGreenTimer st ≥ st.minGreenTime then
      let target :=
        if targetPhase = "NS" then Direction.north else Direction.east
      let st1 := forceGreen st target
      { st1 with
          greenWaveActive := true
          greenWavePhase := some targetPhase
          greenWaveTimer := min (expectedFlow * 2) st.maxGreenTime }
    else st
  else
    { st with greenWaveOffset := offset, greenWavePhase := some targetPhase }

/-- Timer advance performed at the top of `deliberate` (lines 237-239):
every light timer grows by one time step. -/
def advanceLightTimers (st : IntersectionState) : IntersectionState :=
  { st with lightTimers := fun d => st.lightTimers d + st.timeStep }

/-- Store a neighbor snapshot, as `handle_message` does for
`neighbor_state` contents (line 772): dict insertion keeps the position
of an existing key and appends a new one. -/
def storeSnapshot (l : List (String × NeighborSnapshot)) (id : String)
    (s : NeighborSnapshot) : List (String × NeighborSnapshot) :=
  if l.any (fun e => e.1 = id) then
    l.map (fun e => if e.1 = id then (id, s) else e)
  else l ++ [(id, s)]

/-- Events that touch the light state machine: a `deliberate` timer
advance, a phase change, a force-green (emergency priority or CNP
award), a green-wave scheduling, a perception refresh of the queues, or
a stored neighbor snapshot. -/
inductive IOp where
  | tick : IOp
  | change : IOp
  | force : Direction → IOp
  | schedule : String → ℚ → ℚ → IOp
  | setQueues : (Direction → ℕ) → IOp
  | storeNeighborState : String → NeighborSnapshot → IOp

/-- Apply one event to the intersection state. -/
def applyIOp (st : IntersectionState) : IOp → IntersectionState
  | IOp.tick => advanceLightTimers st
  | IOp.change => (changeTrafficLightPhase st).2
  | IOp.force d => forceGreen st d
  | IOp.schedule p o f => scheduleGreenWave st p o f
  | IOp.setQueues q => { st with queueLengths := q }
  | IOp.storeNeighborState id s =>
    { st with neighborStates := storeSnapshot st.neighborStates id s }

/-- Light exclusivity: one of the two phase groups is entirely green
and the other entirely red. -/
def phaseExclusivity (st : IntersectionState) : Prop :=
  (st.trafficLights Direction.north = TrafficLightState.green
    ∧ st.trafficLights Direction.south = TrafficLightState.green
    ∧ st.trafficLights Direction.east = TrafficLightState.red
    ∧ st.trafficLights Direction.west = TrafficLightState.red)
  ∨ (st.trafficLights Direction.east = TrafficLightState.green
    ∧ st.trafficLights Direction.west = TrafficLightState.green
    ∧ st.trafficLights Direction.north = TrafficLightState.red
    ∧ st.trafficLights Direction.south = TrafficLightState.red)

/-- The Max-Pressure switching condition as the specification words it:
the alternative phase's pressure beats the current one's by more than
5, or the green ran past its planned duration with current pressure
below 2, or the green ran past `max_green_time` — with pressures as
queue-in minus downstream estimate summed over the phase group. -/
def specMaxPressureChange (st : IntersectionState) : Prop :=
  let pNS := phasePressure st nsGroup
  let pEW := phasePressure st ewGroup
  let cur := getCurrentPhase st
  let curVal := if cur = "NS" then pNS else pEW
  let altVal := if cur = "NS" then pEW else pNS
  altVal - curVal > 5
  ∨ (currentGreenTimer st > st.greenDurations
        (if cur = "NS" then Direction.north else Direction.east)
      ∧ curVal < 2)
  ∨ currentGreenTimer st > st.maxGreenTime

/-- A Max-Pressure intersection 20 s into its NS green with a heavy
east-west queue, for the C8 witness. -/
def sampleIntersection : IntersectionState :=
  { initIntersectionState (0, 0) 1 false with
      lightTimers := fun _ => 20
      queueLengths := fun d =>
        match d with
        | Direction.east => 12
        | Direction.west => 8
        | _ => 0 }

/-- Source `RoadNetwork._euclidean_distance` (lines 153-157).  Positions are
rational; the distance itself lives in the reals because of the square
root. -/
noncomputable def euclideanDistance (p q : ℚ × ℚ) : ℝ :=
  Real.sqrt (((p.1 : ℝ) - (q.1 : ℝ)) ^ 2 + ((p.2 : ℝ) - (q.2 : ℝ)) ^ 2)

/-- A graph node (`Node`, lines 11-30): position and neighbor-weight
dict. -/
structure RNode where
  pos : ℚ × ℚ
  neighbors : String → Option ℝ

/-- The road network (`RoadNetwork.__init__`): node dict plus the
`_temporary_blockages` list.  The mirrored `networkx` graph carries the
same adjacency and is not consulted by the blockage round trip, so it
is not duplicated here. -/
structure RoadNetwork where
  nodes : String → Option RNode
  temporaryBlockages : List (String × String × ℚ)

/-- Replace one node entry (`self.nodes[id] = ...`). -/
def RoadNetwork.setNode (net : RoadNetwork) (id : String) (n : RNode) :
    RoadNetwork :=
  { net with nodes := fun k => if k = id then some n else net.nodes k }

/-- Source `RoadNetwork.add_edge` (lines 48-63): no-op when either node is
missing; a `None` weight defaults to the Euclidean distance between the
two node positions; both neighbor dicts get the entry.  (The Python
`return False/True` flag is unused by the callers modelled here.) -/
noncomputable def RoadNetwork.addEdge (net : RoadNetwork) (n1 n2 : String)
    (w : Option ℝ) : RoadNetwork :=
  match net.nodes n1, net.nodes n2 with
  | some node1, some node2 =>
    let weight := w.getD (euclideanDistance node1.pos node2.pos)
    let net1 := net.setNode n1
      { node1 with neighbors := fun k =>
          if k = n2 then some weight else node1.neighbors k }
    net1.setNode n2
      { node2 with neighbors := fun k =>
          if k = n1 then some weight else node2.neighbors k }
  | _, _ => net

/-- Source `RoadNetwork.remove_edge` (lines 117-123): pop the neighbor entries
on both sides when both nodes exist. -/
def RoadNetwork.removeEdge (net : RoadNetwork) (n1 n2 : String) :
    RoadNetwork :=
  match net.nodes n1, net.nodes n2 with
  | some node1, some node2 =>
    let net1 := net.setNode n1
      { node1 with neighbors := fun k =>
          if k = n2 then none else node1.neighbors k }
    net1.setNode n2
      { node2 with neighbors := fun k =>
          if k = n1 then none else node2.neighbors k }
  | _, _ => net

/-- Source `RoadNetwork.add_temporary_blockage` (lines 125-136): remove the
edge and record `(node1, node2, expiry)`. -/
def RoadNetwork.addTemporaryBlockage (net : RoadNetwork) (n1 n2 : String)
    (expiry : ℚ) : RoadNetwork :=
  let net1 := net.removeEdge n1 n2
  { net1 with temporaryBlockages := net1.temporaryBlockages ++ [(n1, n2, expiry)] }

/-- Source `RoadNetwork.restore_expired_blockages` (lines 138-151): re-add
(through `add_edge` with no weight argument) every blockage whose
expiry has passed and keep the rest. -/
noncomputable def RoadNetwork.restoreExpiredBlockages (net : RoadNetwork)
    (currentTime : ℚ) : RoadNetwork :=
  let r := net.temporaryBlockages.foldl
    (fun acc b =>
      if currentTime ≥ b.2.2 then (acc.1.addEdge b.1 b.2.1 none, acc.2)
      else (acc.1, acc.2 ++ [b]))
    (net, ([] : List (String × String × ℚ)))
  { r.1 with temporaryBlockages := r.2 }

/-- Concrete node `a` at the origin, joined to `b` with weight 999. -/
def exNodeA : RNode :=
  { pos := (0, 0), neighbors := fun k => if k = "b" then some 999 else none }

/-- Concrete node `b` at (3, 4), joined to `a` with weight 999. -/
def exNodeB : RNode :=
  { pos := (3, 4), neighbors := fun k => if k = "a" then some 999 else none }

/-- Concrete two-node network with a single weight-999 edge. -/
def exNet : RoadNetwork :=
  { nodes := fun k =>
      if k = "a" then some exNodeA
      else if k = "b" then some exNodeB
      else none
    temporaryBlockages := [] }

/-! ### Theorems settling the specification claims -/

/-- Helper: `add_to_inbox` never changes the capacity. -/
theorem addToInbox_maxSize (q : MessageQueue) (m : FIPAMessage) :
    (addToInbox q m).maxSize = q.maxSize := by
  unfold addToInbox; split_ifs <;> rfl

/-- Helper: one `add_to_inbox` step preserves the inbox bound. -/
theorem addToInbox_length_le (q : MessageQueue) (m : FIPAMessage)
    (h1 : 0 < q.maxSize) (h2 : q.inbox.length ≤ q.maxSize) :
    (addToInbox q m).inbox.length ≤ q.maxSize := by
  unfold addToInbox
  split_ifs with h
  · simpa using h
  · simp only [List.length_append, List.length_drop, List.length_cons,
      List.length_nil]
    omega

/-- Helper: the inbox bound survives any fold of `add_to_inbox` calls. -/
theorem foldl_addToInbox_length_le (msgs : List FIPAMessage) :
    ∀ q : MessageQueue, 0 < q.maxSize → q.inbox.length ≤ q.maxSize →
      ((msgs.foldl addToInbox q).inbox.length ≤ q.maxSize
        ∧ (msgs.foldl addToInbox q).maxSize = q.maxSize) := by
  induction msgs with
  | nil => intro q h1 h2; exact ⟨h2, rfl⟩
  | cons m rest ih =>
    intro q h1 h2
    have hmax := addToInbox_maxSize q m
    have hlen := addToInbox_length_le q m h1 h2
    have := ih (addToInbox q m) (hmax ▸ h1) (hmax ▸ hlen)
    exact ⟨by simpa [hmax] using this.1, by simpa [hmax] using this.2⟩

/-- C6: starting from a fresh queue of capacity `max_size ≥ 1`, any
sequence of `add_to_inbox` calls keeps the inbox length at most
`max_size`; adding to a full inbox evicts the oldest (first) entry,
appends the new message (so it is always admitted), and keeps the
length exactly `max_size`. -/
theorem C6_mailbox_bound (maxSize : ℕ) (h : 0 < maxSize) :
    (∀ msgs : List FIPAMessage,
        (msgs.foldl addToInbox (emptyQueue maxSize)).inbox.length ≤ maxSize)
    ∧ (∀ (q : MessageQueue) (m : FIPAMessage), q.maxSize = maxSize →
        q.inbox.length = maxSize →
        (addToInbox q m).inbox = q.inbox.drop 1 ++ [m]
          ∧ m ∈ (addToInbox q m).inbox
          ∧ (addToInbox q m).inbox.length = maxSize) := by
  constructor
  · intro msgs
    exact (foldl_addToInbox_length_le msgs (emptyQueue maxSize) h
      (by simp [emptyQueue])).1
  · intro q m hq hfull
    have hnotlt : ¬ q.inbox.length < q.maxSize := by omega
    have heq : (addToInbox q m).inbox = q.inbox.drop 1 ++ [m] := by
      unfold addToInbox
      rw [if_neg hnotlt]
    refine ⟨heq, ?_, ?_⟩
    · rw [heq]; simp
    · rw [heq]
      simp only [List.length_append, List.length_drop, List.length_cons,
        List.length_nil]
      omega

/-- C6 witness: concrete instantiation at capacity 2 with three adds. -/
theorem C6_mailbox_bound_witness :
    0 < 2
    ∧ ([sampleMsg 0, sampleMsg 1, sampleMsg 2].foldl addToInbox
        (emptyQueue 2)).inbox.length ≤ 2 :=
  ⟨by decide, (C6_mailbox_bound 2 (by decide)).1 [sampleMsg 0, sampleMsg 1, sampleMsg 2]⟩

/-- C7: a reply `R = M.create_reply(performative, content)` swaps sender
and receiver, sets `reply_to` to the original `message_id`, and carries
over the original `conversation_id` and `protocol`.  `create_reply`
builds a fresh message, so `M` itself is unchanged (the embedding is a
pure function of `M`). -/
theorem C7_reply_identity (m : FIPAMessage) (p : String)
    (c : List (String × CVal)) (ts : ℚ) (mid : String) :
    (createReply m p c ts mid).sender = m.receiver
    ∧ (createReply m p c ts mid).receiver = m.sender
    ∧ (createReply m p c ts mid).replyTo = some m.messageId
    ∧ (createReply m p c ts mid).conversationId = m.conversationId
    ∧ (createReply m p c ts mid).protocol = m.protocol :=
  ⟨rfl, rfl, rfl, rfl, rfl⟩

/-- C4: at a Euclidean distance of 20000 m (20 km, strictly beyond
10 km) the source computes a correction factor of 1.15, not the 1.10
the specification states: the `elif euclidean_dist > 10000` branch is
unreachable because the `> 5000` branch already caught the value. -/
theorem C4_heuristic_factor_dead_branch :
    osmCorrectionFactor 20000 = 23/20
    ∧ specOsmCorrectionFactor 20000 = 11/10
    ∧ osmCorrectionFactor 20000 ≠ specOsmCorrectionFactor 20000
    ∧ heuristicOfDistance 20000 = 23000 := by
  refine ⟨?_, ?_, ?_, ?_⟩ <;> norm_num [osmCorrectionFactor,
    specOsmCorrectionFactor, heuristicOfDistance]

/-- C3 (code bug): when a vehicle receives the incident scenario's
`inform` message reporting congestion level 1.0 with reason `incident`,
`handle_message` leaves the vehicle completely unchanged: no congestion
belief is updated and no route recalculation happens.  The handler's
guard `performative == "INFORM"` can never match, because
`__post_init__` normalizes every standard performative to lower case,
and its second guard looks for a content KEY named `congestion`, which
congestion/incident messages do not carry. -/
theorem C3_inform_handler_inert (st : VehicleState) :
    vehicleHandleMessage st incidentInformMsg = some st := by
  have hperf : incidentInformMsg.performative = "inform" := by decide
  unfold vehicleHandleMessage
  rw [hperf]
  simp

/-- C9: when the router returns no route (`None`), a `ChangeRoute`
intention fails (`_recalculate_route` returns `False`) and the vehicle's
`current_route`, `current_waypoint_index` and `route_changes` — indeed
its whole state — are left unchanged. -/
theorem C9_route_not_found_keeps_state
    (router : ℚ × ℚ → ℚ × ℚ → Option (List (ℚ × ℚ))) (st : VehicleState)
    (h : router st.position st.destination = none) :
    recalculateRoute router st = (false, st)
    ∧ (recalculateRoute router st).2.currentRoute = st.currentRoute
    ∧ (recalculateRoute router st).2.currentWaypointIndex = st.currentWaypointIndex
    ∧ (recalculateRoute router st).2.routeChanges = st.routeChanges := by
  unfold recalculateRoute
  rw [h]
  exact ⟨rfl, rfl, rfl, rfl⟩

/-- C9 witness: a router that finds no path leaves the sample vehicle
untouched. -/
theorem C9_route_not_found_keeps_state_witness :
    recalculateRoute (fun _ _ => none) sampleVehicle = (false, sampleVehicle) :=
  (C9_route_not_found_keeps_state (fun _ _ => none) sampleVehicle rfl).1

/-- Helper: the accept message carries performative `accept-proposal`. -/
theorem cnpAcceptMsg_performative (st : CrisisState) (cid r : String) :
    (cnpAcceptMsg st cid r).performative = "accept-proposal" := by
  show normalizePerformative "accept-proposal" = "accept-proposal"
  decide

/-- Helper: the reject message carries performative `reject-proposal`. -/
theorem cnpRejectMsg_performative (st : CrisisState) (cid r : String) :
    (cnpRejectMsg st cid r).performative = "reject-proposal" := by
  show normalizePerformative "reject-proposal" = "reject-proposal"
  decide

/-- Helper: `max(proposals, key=availability)` returns an element of the
list. -/
theorem maxByAvailability_mem (ps : List Proposal) :
    ∀ p : Proposal, maxByAvailability p ps ∈ p :: ps := by
  induction ps with
  | nil => intro p; simp [maxByAvailability]
  | cons q rest ih =>
    intro p
    unfold maxByAvailability at ih ⊢
    simp only [List.foldl_cons]
    rcases List.mem_cons.mp (ih (if q.availability > p.availability then q else p))
      with h1 | h1
    · rw [h1]
      split_ifs <;> simp
    · simp [h1]

/-- Helper: the selected proposal's availability dominates every listed
proposal's availability. -/
theorem maxByAvailability_le (ps : List Proposal) :
    ∀ p : Proposal, ∀ r ∈ p :: ps,
      r.availability ≤ (maxByAvailability p ps).availability := by
  induction ps with
  | nil =>
    intro p r hr
    rcases List.mem_cons.mp hr with h1 | h1
    · rw [h1]; simp [maxByAvailability]
    · simp at h1
  | cons q rest ih =>
    intro p r hr
    unfold maxByAvailability at ih ⊢
    simp only [List.foldl_cons]
    have hacc : p.availability ≤ (if q.availability > p.availability then q else p).availability
        ∧ q.availability ≤ (if q.availability > p.availability then q else p).availability := by
      split_ifs with h
      · exact ⟨le_of_lt h, le_refl _⟩
      · exact ⟨le_refl _, le_of_not_lt h⟩
    have hhead := ih (if q.availability > p.availability then q else p)
      (if q.availability > p.availability then q else p) (List.mem_cons_self _ _)
    rcases List.mem_cons.mp hr with h1 | h1
    · rw [h1]; exact le_trans hacc.1 hhead
    · rcases List.mem_cons.mp h1 with h2 | h2
      · rw [h2]; exact le_trans hacc.2 hhead
      · exact ih _ r (List.mem_cons_of_mem _ h2)

/-- Helper: in a list of proposals with pairwise-distinct senders,
exactly one entry has the sender of a given member. -/
theorem countP_sender_eq_one (l : List Proposal) (b : Proposal)
    (hdist : l.Pairwise (fun p q => p.sender ≠ q.sender)) (hb : b ∈ l) :
    l.countP (fun p => p.sender == b.sender) = 1 := by
  induction l with
  | nil => simp at hb
  | cons a t ih =>
    rcases List.pairwise_cons.mp hdist with ⟨ha, ht⟩
    rcases List.mem_cons.mp hb with h1 | h1
    · subst h1
      rw [List.countP_cons]
      have hz : t.countP (fun p => p.sender == b.sender) = 0 := by
        rw [List.countP_eq_zero]
        intro p hp
        simpa using (ha p hp).symm
      simp [hz]
    · have hneq : a.sender ≠ b.sender := ha b h1
      rw [List.countP_cons]
      have := ih ht h1
      simp [this, hneq]

/-- Helper: the performative count of the decision messages reduces to a
sender count on the proposal list. -/
theorem countP_accept_decision (st : CrisisState) (cid : String)
    (best : Proposal) (l : List Proposal) :
    ((l.map fun p =>
        if p.sender = best.sender then cnpAcceptMsg st cid p.sender
        else cnpRejectMsg st cid p.sender).countP
      (fun msg => msg.performative == "accept-proposal"))
    = l.countP (fun p => p.sender == best.sender) := by
  induction l with
  | nil => rfl
  | cons a t ih =>
    simp only [List.map_cons, List.countP_cons]
    rw [ih]
    congr 1
    by_cases h : a.sender = best.sender
    · rw [if_pos h]
      simp [cnpAcceptMsg_performative, h]
    · rw [if_neg h]
      simp [cnpRejectMsg_performative, h]

/-- Helper: the decision messages are addressed, in order, to the stored
proposals' senders. -/
theorem map_receiver_decision (st : CrisisState) (cid : String)
    (best : Proposal) (l : List Proposal) :
    ((l.map fun p =>
        if p.sender = best.sender then cnpAcceptMsg st cid p.sender
        else cnpRejectMsg st cid p.sender).map (fun msg => msg.receiver))
    = l.map (fun p => p.sender) := by
  induction l with
  | nil => rfl
  | cons a t ih =>
    simp only [List.map_cons, ih]
    congr 1
    by_cases h : a.sender = best.sender
    · rw [if_pos h]; rfl
    · rw [if_neg h]; rfl

/-- C5 (amended): once at least two proposals with distinct senders are
collected for a conversation, the crisis manager emits exactly one
`accept-proposal`, addressed to the first proposer of maximal
availability and carrying the HARD-CODED `priority_direction` value
`"north"` (not the congested intersection's chosen direction), emits one
message per proposer (the others being `reject-proposal`, in proposal
order to the proposers' ids), and deletes the conversation state. -/
theorem C5_cnp_arbitration (st : CrisisState) (m : FIPAMessage)
    (h2 : 2 ≤ (cnpUpdatedProposals st m).length)
    (hdist : (cnpUpdatedProposals st m).Pairwise (fun p q => p.sender ≠ q.sender)) :
    ((evaluateCnpProposal st m).1.countP
        (fun msg => msg.performative == "accept-proposal") = 1)
    ∧ (∃ p ∈ cnpUpdatedProposals st m,
        cnpAcceptMsg st (cnpConversationId m) p.sender ∈ (evaluateCnpProposal st m).1
        ∧ (∀ q ∈ cnpUpdatedProposals st m, q.availability ≤ p.availability)
        ∧ getStr (cnpAcceptMsg st (cnpConversationId m) p.sender).content
            "priority_direction" "" = "north")
    ∧ ((evaluateCnpProposal st m).1.map (fun msg => msg.receiver)
        = (cnpUpdatedProposals st m).map (fun p => p.sender))
    ∧ (∀ msg ∈ (evaluateCnpProposal st m).1,
        msg.performative = "accept-proposal" ∨ msg.performative = "reject-proposal")
    ∧ ((evaluateCnpProposal st m).2.cnpProposals (cnpConversationId m) = none) := by
  have heval : evaluateCnpProposal st m =
      (cnpDecisionMsgs st (cnpConversationId m) (cnpUpdatedProposals st m),
        { st with cnpProposals := fun k =>
            if k = cnpConversationId m then none else st.cnpProposals k }) := by
    unfold evaluateCnpProposal
    rw [if_pos h2]
  rcases hps : cnpUpdatedProposals st m with _ | ⟨p0, rest⟩
  · rw [hps] at h2; simp at h2
  · rw [hps] at heval hdist
    have hmsgs : (evaluateCnpProposal st m).1 =
        (p0 :: rest).map fun p =>
          if p.sender = (maxByAvailability p0 rest).sender then
            cnpAcceptMsg st (cnpConversationId m) p.sender
          else cnpRejectMsg st (cnpConversationId m) p.sender := by
      rw [heval]; rfl
    have hbestmem : maxByAvailability p0 rest ∈ p0 :: rest :=
      maxByAvailability_mem rest p0
    refine ⟨?_, ?_, ?_, ?_, ?_⟩
    · rw [hmsgs, countP_accept_decision]
      exact countP_sender_eq_one _ _ hdist hbestmem
    · refine ⟨maxByAvailability p0 rest, hbestmem, ?_, ?_, ?_⟩
      · rw [hmsgs]
        have heq : cnpAcceptMsg st (cnpConversationId m) (maxByAvailability p0 rest).sender
            = (fun p =>
                if p.sender = (maxByAvailability p0 rest).sender then
                  cnpAcceptMsg st (cnpConversationId m) p.sender
                else cnpRejectMsg st (cnpConversationId m) p.sender)
              (maxByAvailability p0 rest) := by
          simp
        rw [heq]
        exact List.mem_map_of_mem _ hbestmem
      · intro q hq
        exact maxByAvailability_le rest p0 q hq
      · show getStr [("task", CVal.str "priority_delegation"),
          ("priority_direction", CVal.str "north")] "priority_direction" "" = "north"
        decide
    · rw [hmsgs]
      exact map_receiver_decision st (cnpConversationId m) (maxByAvailability p0 rest)
        (p0 :: rest)
    · intro msg hmsg
      rw [hmsgs] at hmsg
      rcases List.mem_map.mp hmsg with ⟨p, _, hp2⟩
      by_cases h : p.sender = (maxByAvailability p0 rest).sender
      · left; rw [← hp2, if_pos h]; exact cnpAcceptMsg_performative _ _ _
      · right; rw [← hp2, if_neg h]; exact cnpRejectMsg_performative _ _ _
    · rw [heval]
      simp

/-- C5 counterexample: with the congested intersection's chosen
direction being `east`, the unique `accept-proposal` emitted by the CNP
arbitration still carries `priority_direction = "north"`, so the accept
does not carry the chosen direction as the claim states. -/
theorem C5_cnp_counterexample :
    directionValue (worstDirection exCongestedQueues) = "east"
    ∧ (((evaluateCnpProposal exCrisisState exProposeMsg).1.filter
          (fun msg => msg.performative == "accept-proposal")).map
          (fun msg => getStr msg.content "priority_direction" ""))
        = ["north"]
    ∧ ("north" : String) ≠ "east" := by decide

/-- C5 witness: the amended arbitration theorem applied to the concrete
two-proposal conversation. -/
theorem C5_cnp_arbitration_witness :
    2 ≤ (cnpUpdatedProposals exCrisisState exProposeMsg).length
    ∧ ((evaluateCnpProposal exCrisisState exProposeMsg).1.countP
        (fun msg => msg.performative == "accept-proposal") = 1)
    ∧ ((evaluateCnpProposal exCrisisState exProposeMsg).2.cnpProposals "cnp_1" = none) :=
  ⟨by decide,
   (C5_cnp_arbitration exCrisisState exProposeMsg (by decide) (by decide)).1,
   (C5_cnp_arbitration exCrisisState exProposeMsg (by decide) (by decide)).2.2.2.2⟩

/-- Helper: an operation that keeps the lights keeps exclusivity. -/
theorem phaseExclusivity_of_eq_lights (st st' : IntersectionState)
    (h : st'.trafficLights = st.trafficLights) :
    phaseExclusivity st → phaseExclusivity st' := by
  intro hinv
  unfold phaseExclusivity at hinv ⊢
  rw [h]
  exact hinv

/-- Helper: a phase flip establishes exclusivity unconditionally — the
new green and red groups partition the four directions. -/
theorem phaseExclusivity_applyPhaseTransition (st : IntersectionState)
    (p : String) : phaseExclusivity (applyPhaseTransition st p) := by
  by_cases h : p = "NS"
  · left
    simp [applyPhaseTransition, h, nsGroup, ewGroup]
  · right
    simp [applyPhaseTransition, h, nsGroup, ewGroup]

/-- Helper: `_change_traffic_light_phase` preserves exclusivity. -/
theorem phaseExclusivity_changePhase (st : IntersectionState)
    (h : phaseExclusivity st) :
    phaseExclusivity (changeTrafficLightPhase st).2 := by
  unfold changeTrafficLightPhase
  split_ifs with h1
  · exact h
  · exact phaseExclusivity_applyPhaseTransition _ _

/-- Helper: the force-green transition establishes exclusivity
unconditionally. -/
theorem phaseExclusivity_forceGreenApply (st : IntersectionState)
    (d : Direction) : phaseExclusivity (forceGreenApply st d) := by
  cases d
  · left; simp [forceGreenApply, nsGroup, ewGroup]
  · left; simp [forceGreenApply, nsGroup, ewGroup]
  · right; simp [forceGreenApply, nsGroup, ewGroup]
  · right; simp [forceGreenApply, nsGroup, ewGroup]

/-- Helper: `_force_green` preserves exclusivity. -/
theorem phaseExclusivity_forceGreen (st : IntersectionState)
    (d : Direction) (h : phaseExclusivity st) :
    phaseExclusivity (forceGreen st d) := by
  unfold forceGreen
  split_ifs with h1 h2
  · exact h
  · exact h
  · exact phaseExclusivity_forceGreenApply _ _

/-- Helper: `_schedule_green_wave` preserves exclusivity. -/
theorem phaseExclusivity_scheduleGreenWave (st : IntersectionState)
    (p : String) (o f : ℚ) (h : phaseExclusivity st) :
    phaseExclusivity (scheduleGreenWave st p o f) := by
  unfold scheduleGreenWave
  split_ifs <;>
    first
      | exact h
      | exact phaseExclusivity_of_eq_lights st _ rfl h
      | exact phaseExclusivity_of_eq_lights _ _ rfl
          (phaseExclusivity_forceGreen st _ h)

/-- Helper: every event preserves exclusivity. -/
theorem phaseExclusivity_applyIOp (st : IntersectionState) (op : IOp)
    (h : phaseExclusivity st) : phaseExclusivity (applyIOp st op) := by
  cases op with
  | tick => exact phaseExclusivity_of_eq_lights st _ rfl h
  | change => exact phaseExclusivity_changePhase st h
  | force d => exact phaseExclusivity_forceGreen st d h
  | schedule p o f => exact phaseExclusivity_scheduleGreenWave st p o f h
  | setQueues q => exact phaseExclusivity_of_eq_lights st _ rfl h
  | storeNeighborState id s => exact phaseExclusivity_of_eq_lights st _ rfl h

/-- Helper: exclusivity along any event fold. -/
theorem phaseExclusivity_foldl (ops : List IOp) :
    ∀ st : IntersectionState, phaseExclusivity st →
      phaseExclusivity (ops.foldl applyIOp st) := by
  induction ops with
  | nil => intro st h; exact h
  | cons op rest ih =>
    intro st h
    exact ih (applyIOp st op) (phaseExclusivity_applyIOp st op h)

/-- C1: from initialization and through any sequence of timer advances,
phase changes (`_change_traffic_light_phase`), forced greens
(`_force_green`), green-wave schedulings, queue refreshes and neighbor
snapshots, exactly one of the phase groups {north, south} and
{east, west} is green and the other is red — the two groups are never
simultaneously green. -/
theorem C1_phase_exclusivity (ops : List IOp) (position : ℚ × ℚ)
    (timeStep : ℚ) (useQL : Bool) :
    phaseExclusivity (ops.foldl applyIOp
      (initIntersectionState position timeStep useQL)) := by
  apply phaseExclusivity_foldl
  left
  exact ⟨rfl, rfl, rfl, rfl⟩

/-- Helper: Max-Pressure never changes below the minimum green time. -/
theorem maxPressureDecision_gate (st : IntersectionState)
    (h : currentGreenTimer st < st.minGreenTime) :
    maxPressureDecision st = false := by
  simp only [maxPressureDecision]
  rw [if_pos h]

/-- Helper: Q-Learning never changes below the minimum green time,
whatever the two random draws are. -/
theorem qLearningDecision_gate (st : IntersectionState) (r1 r2 : ℚ)
    (h : currentGreenTimer st < st.minGreenTime) :
    (qLearningDecision st r1 r2).1 = false := by
  simp only [qLearningDecision]
  rw [if_pos h]

/-- Helper: the policy dispatch never changes below the minimum green
time. -/
theorem decisionDispatch_gate (st : IntersectionState) (r1 r2 : ℚ)
    (h : currentGreenTimer st < st.minGreenTime) :
    (if st.useQLearning then qLearningDecision st r1 r2
      else (maxPressureDecision st, st)).1 = false := by
  by_cases hql : st.useQLearning
  · rw [if_pos hql]
    exact qLearningDecision_gate st r1 r2 h
  · rw [if_neg hql]
    exact maxPressureDecision_gate st h

/-- C2: while the currently green group's timer is below
`min_green_time`, `_should_change_phase` returns false under both
Max-Pressure and Q-Learning (for any random draws), and `_force_green`
(used by emergency priority and CNP awards) leaves the state unchanged
whenever some green direction has not yet satisfied the floor — so the
green group is never turned red early. -/
theorem C2_min_green_respected :
    (∀ (st : IntersectionState) (r1 r2 : ℚ),
        currentGreenTimer st < st.minGreenTime →
        (shouldChangePhase st r1 r2).1 = false)
    ∧ (∀ (st : IntersectionState) (d : Direction),
        forceGreenGate st → forceGreen st d = st) := by
  constructor
  · intro st r1 r2 h
    unfold shouldChangePhase
    by_cases hga : st.greenWaveActive
    · rw [if_pos hga]
      by_cases ht : st.greenWaveTimer - st.timeStep > 0
      · rw [if_pos ht]
      · rw [if_neg ht]
        exact decisionDispatch_gate _ r1 r2 h
    · rw [if_neg hga]
      exact decisionDispatch_gate st r1 r2 h
  · intro st d hgate
    unfold forceGreen
    rw [if_pos hgate]

/-- C2 witness: the freshly initialized intersection (timers at zero)
refuses a phase change and ignores a forced green. -/
theorem C2_min_green_respected_witness :
    currentGreenTimer (initIntersectionState (0, 0) 1 false) <
      (initIntersectionState (0, 0) 1 false).minGreenTime
    ∧ (shouldChangePhase (initIntersectionState (0, 0) 1 false) 0 0).1 = false
    ∧ forceGreen (initIntersectionState (0, 0) 1 false) Direction.east
        = initIntersectionState (0, 0) 1 false := by
  have h : currentGreenTimer (initIntersectionState (0, 0) 1 false) <
      (initIntersectionState (0, 0) 1 false).minGreenTime := by
    norm_num [currentGreenTimer, initIntersectionState, allDirections]
  have hgate : forceGreenGate (initIntersectionState (0, 0) 1 false) := by
    refine ⟨Direction.north, by simp [allDirections], rfl, ?_⟩
    norm_num [initIntersectionState]
  exact ⟨h, C2_min_green_respected.1 _ 0 0 h,
    C2_min_green_respected.2 _ Direction.east hgate⟩

/-- Helper: the current phase string is one of `NS` and `EW`. -/
theorem getCurrentPhase_cases (st : IntersectionState) :
    getCurrentPhase st = "NS" ∨ getCurrentPhase st = "EW" := by
  unfold getCurrentPhase
  split_ifs <;> simp

/-- Helper: above the minimum green time, the Max-Pressure decision is
exactly the specification's switching condition. -/
theorem maxPressure_iff_spec (st : IntersectionState)
    (hmin : st.minGreenTime ≤ currentGreenTimer st) :
    (maxPressureDecision st = true ↔ specMaxPressureChange st) := by
  simp only [maxPressureDecision, specMaxPressureChange]
  rw [if_neg (not_lt.mpr hmin)]
  rcases getCurrentPhase_cases st with hc | hc <;> rw [hc] <;>
    split_ifs <;> simp_all <;> first | tauto | linarith

/-- C8: for an intersection running Max-Pressure (no Q-Learning), with
no green-wave lock active and the current green timer at least
`min_green_time`, the phase-change decision is true exactly when the
specification's switching condition holds. -/
theorem C8_max_pressure_decision (st : IntersectionState) (r1 r2 : ℚ)
    (hgw : st.greenWaveActive = false)
    (hql : st.useQLearning = false)
    (hmin : st.minGreenTime ≤ currentGreenTimer st) :
    ((shouldChangePhase st r1 r2).1 = true ↔ specMaxPressureChange st) := by
  have hchg : shouldChangePhase st r1 r2 = (maxPressureDecision st, st) := by
    unfold shouldChangePhase
    rw [if_neg (by simp [hgw]), if_neg (by simp [hql])]
  rw [hchg]
  exact maxPressure_iff_spec st hmin

/-- C8 witness: the equivalence instantiated at the concrete
intersection, with every hypothesis discharged there. -/
theorem C8_max_pressure_decision_witness :
    sampleIntersection.greenWaveActive = false
    ∧ sampleIntersection.useQLearning = false
    ∧ sampleIntersection.minGreenTime ≤ currentGreenTimer sampleIntersection
    ∧ ((shouldChangePhase sampleIntersection 0 0).1 = true
        ↔ specMaxPressureChange sampleIntersection) := by
  have hmin : sampleIntersection.minGreenTime ≤ currentGreenTimer sampleIntersection := by
    norm_num [currentGreenTimer, sampleIntersection, initIntersectionState,
      allDirections]
  exact ⟨rfl, rfl, hmin, C8_max_pressure_decision sampleIntersection 0 0 rfl rfl hmin⟩

/-- C10: for nodes `u ≠ v` joined by an edge of arbitrary weight `w`,
blocking the edge with `add_temporary_blockage(u, v, expiry)` and
restoring it with `restore_expired_blockages(now)` at `now ≥ expiry`
re-creates the edge with weight equal to the Euclidean distance of the
node positions — not the original `w` whenever `w` differed from that
distance. -/
theorem C10_restore_uses_euclidean_weight (net : RoadNetwork)
    (u v : String) (nu nv : RNode) (w : ℝ) (expiry now : ℚ)
    (hu : net.nodes u = some nu) (hv : net.nodes v = some nv)
    (huv : u ≠ v) (hweight : nu.neighbors v = some w)
    (hb : net.temporaryBlockages = [])
    (hnow : expiry ≤ now) :
    ((((net.addTemporaryBlockage u v expiry).restoreExpiredBlockages
        now).nodes u).map (fun n => n.neighbors v)
      = some (some (euclideanDistance nu.pos nv.pos)))
    ∧ (w ≠ euclideanDistance nu.pos nv.pos →
        (((net.addTemporaryBlockage u v expiry).restoreExpiredBlockages
            now).nodes u).map (fun n => n.neighbors v) ≠ some (some w)) := by
  have key : (((net.addTemporaryBlockage u v expiry).restoreExpiredBlockages
      now).nodes u).map (fun n => n.neighbors v)
      = some (some (euclideanDistance nu.pos nv.pos)) := by
    simp only [RoadNetwork.addTemporaryBlockage, RoadNetwork.removeEdge, hu, hv,
      hb, RoadNetwork.setNode, RoadNetwork.restoreExpiredBlockages, List.foldl,
      RoadNetwork.addEdge, List.nil_append, ge_iff_le, hnow, if_true,
      Option.getD_none, huv, Ne.symm huv, if_neg, if_pos, Option.map_some]
    simp [huv, Ne.symm huv]
  refine ⟨key, fun hne => ?_⟩
  rw [key]
  intro hcontra
  apply hne
  have := (Option.some.injEq _ _).mp hcontra
  exact ((Option.some.injEq _ _).mp this).symm

/-- C10 witness: block and restore the weight-999 edge of the concrete
network; the restored weight is the Euclidean distance of the node
positions (which is 5, not 999). -/
theorem C10_restore_uses_euclidean_weight_witness :
    exNet.nodes "a" = some exNodeA
    ∧ exNet.nodes "b" = some exNodeB
    ∧ ("a" : String) ≠ "b"
    ∧ exNodeA.neighbors "b" = some 999
    ∧ exNet.temporaryBlockages = []
    ∧ (5 : ℚ) ≤ 10
    ∧ ((((exNet.addTemporaryBlockage "a" "b" 5).restoreExpiredBlockages
          10).nodes "a").map (fun n => n.neighbors "b")
        = some (some (euclideanDistance exNodeA.pos exNodeB.pos)))
    ∧ euclideanDistance exNodeA.pos exNodeB.pos = 5 := by
  have hne : ("a" : String) ≠ "b" := by decide
  refine ⟨rfl, rfl, hne, rfl, rfl, by norm_num, ?_, ?_⟩
  · exact (C10_restore_uses_euclidean_weight exNet "a" "b" exNodeA exNodeB
      999 5 10 rfl rfl hne rfl rfl (by norm_num)).1
  · unfold euclideanDistance exNodeA exNodeB
    rw [show ((((0:ℚ):ℝ) - ((3:ℚ):ℝ)) ^ 2 + (((0:ℚ):ℝ) - ((4:ℚ):ℝ)) ^ 2) = (5:ℝ) ^ 2 by
      norm_num]
    exact Real.sqrt_sq (by norm_num)
